import Mathlib

/-!
Shallow embedding of `src/validation/src/approval/assignments/criteria.rs`:
the approval-checker assignment VRF criteria framework (criteria strategies,
the assignment create / sign / to_signed / verify pipeline, and the sortition
`Position` logic).  The schnorrkel VRF/DLEQ primitive library is external to
the repository and is modelled at its interface contract: an opaque bundle of
operations (`Schnorrkel`) together with the completeness contract
(`SchnorrkelLaws`) the spec assumes of the "opaque, already-correct
cryptographic library".  `ApprovalContext` and the story types are declared
outside the embedded file and are modelled from the spec.
-/

/-- Byte strings (`&[u8]`, `Vec<u8>`, fixed-length byte arrays) as lists of naturals. -/
abbrev Bytes : Type := List Nat

/-- Parachain id (`ParaId`, a `u32` newtype). -/
abbrev ParaId : Type := Nat

/-- Delay tranche number (`DelayTranche`, a `u32`). -/
abbrev DelayTranche : Type := Nat

/-- Block hash bytes. -/
abbrev Hash : Type := Bytes

/-- Validator identity: the raw public-key bytes (substrate `ValidatorId`). -/
abbrev ValidatorId : Type := Bytes

/-- One merlin transcript operation: domain separation (`Transcript::new`),
a 64-bit field (`append_u64`), or a message field (`append_message`). -/
inductive TranscriptOp where
  | fresh (label : String)
  | appendU64 (label : String) (x : Nat)
  | appendMessage (label : String) (msg : Bytes)
deriving DecidableEq

/-- A merlin transcript, modelled as the exact sequence of domain-separated
append operations performed on it; the required bit-exactness between signer
and verifier becomes list equality. -/
abbrev Transcript : Type := List TranscriptOp

/-- `Transcript::new(label)`. -/
def Transcript.new (label : String) : Transcript := [TranscriptOp.fresh label]

/-- `Transcript::append_u64(label, x)`. -/
def Transcript.append_u64 (t : Transcript) (label : String) (x : Nat) : Transcript :=
  t ++ [TranscriptOp.appendU64 label x]

/-- `Transcript::append_message(label, msg)`. -/
def Transcript.append_message (t : Transcript) (label : String) (msg : Bytes) : Transcript :=
  t ++ [TranscriptOp.appendMessage label msg]

/-- `crate::Error`: the two error kinds used by this module. -/
inductive Error where
  | BadAssignment (msg : String)
  | BadStory (msg : String)
deriving DecidableEq

/-- `AssignmentResult<T> = Result<T, Error>`. -/
inductive AssignmentResult (α : Type) where
  | ok (val : α)
  | error (err : Error)
deriving DecidableEq

/-- Modelled from the spec: `stories::RelayVRFStory` is declared outside the
embedded file; per spec section 6 it carries the relay-chain VRF entropy bytes
`anv_rc_vrf_source`. -/
structure RelayVRFStory where
  anv_rc_vrf_source : Bytes
deriving DecidableEq

/-- Modelled from the spec: `stories::RelayEquivocationStory` is declared
outside the embedded file; per spec section 6 its `candidate_equivocations`
maps a `ParaId` to the recorded equivocating block hash. -/
structure RelayEquivocationStory where
  candidate_equivocations : List (ParaId × Hash)
deriving DecidableEq

/-- Modelled from the spec: `ApprovalContext` is defined outside the embedded
file; per spec sections 3 and 6 it identifies slot, epoch, block hash and the
authority, and exposes `num_cores`, `core_by_paraid` and `paraids_by_core`
over one ordered sequence of parachain-id-or-empty core entries. -/
structure ApprovalContext where
  slot : Nat
  epoch : Nat
  hash : Bytes
  authority : ValidatorId
  cores : List (Option ParaId)
deriving DecidableEq

/-- Modelled from the spec: `ApprovalContext::num_cores()`, the number of
availability cores. -/
def ApprovalContext.num_cores (c : ApprovalContext) : Nat := c.cores.length

/-- Modelled from the spec: `ApprovalContext::paraids_by_core()`, the ordered
sequence of parachain-id-or-empty entries, one per core. -/
def ApprovalContext.paraids_by_core (c : ApprovalContext) : List (Option ParaId) := c.cores

/-- Modelled from the spec: `ApprovalContext::core_by_paraid(id)`, the core
currently assigned to `id`, if any. -/
def ApprovalContext.core_by_paraid (c : ApprovalContext) (id : ParaId) : Option Nat :=
  c.cores.findIdx? (fun e => e == some id)

/-- `ApprovalContext::transcript`: the context-binding transcript with domain
label "Approval Assignment Signature" and, in order, the 64-bit slot, the
64-bit epoch, the block hash bytes, and the authority public-key bytes. -/
def ApprovalContext.transcript (c : ApprovalContext) : Transcript :=
  ((((Transcript.new "Approval Assignment Signature").append_u64 "rad slot"
      c.slot).append_u64 "rad epoch" c.epoch).append_message "rad block"
    c.hash).append_message "rad authority" c.authority

/-- A schnorrkel `Keypair`; the public key is an opaque point value. -/
structure Keypair where
  secret : Nat
  public : Nat
deriving DecidableEq

/-- `vrf::VRFInOut`: a VRF input/output pair, holding the input transcript and
the serialized preoutput bytes of the output point. -/
structure VRFInOut where
  input : Transcript
  output : Bytes
deriving DecidableEq

/-- Interface model of the external schnorrkel VRF/DLEQ primitive library
(spec sections 1 and 6 treat it as an opaque, already-correct primitive):
`vrfPreOut` is the serialized output point derived from a secret key and an
input transcript; `attachOk` tells whether public key, preoutput bytes and
input transcript combine consistently (`VRFOutput::attach_input_hash`);
`makeBytes8` draws 8 pseudorandom bytes from an input/output pair under a
domain label (`VRFInOut::make_bytes`); `dleqProove` and `dleqVerify` are DLEQ
proof generation and verification under a named protocol identifier;
`proofValid` tells whether proof bytes decode (`VRFProof::from_bytes`);
`pkFromBytes` and `pkToBytes` decode and serialize public keys. -/
structure Schnorrkel where
  vrfPreOut : Nat → Transcript → Bytes
  attachOk : Nat → Bytes → Transcript → Bool
  makeBytes8 : Transcript → Bytes → String → Bytes
  dleqProove : String → Keypair → Transcript → VRFInOut → Bytes
  proofValid : Bytes → Bool
  dleqVerify : String → Nat → Transcript → VRFInOut → Bytes → Bool
  pkFromBytes : Bytes → Option Nat
  pkToBytes : Nat → Bytes

/-- `vrf::KUSAMA_VRF`: the fixed, network-wide verification-protocol
identifier, modelled as an opaque token. -/
def KUSAMA_VRF : String := "KUSAMA_VRF"

/-- `Keypair::vrf_create_hash`: derive the VRF input/output pair
deterministically from the secret key and the input transcript. -/
def Keypair.vrf_create_hash (S : Schnorrkel) (kp : Keypair) (t : Transcript) : VRFInOut :=
  { input := t, output := S.vrfPreOut kp.secret t }

/-- `VRFInOut::to_output().to_bytes()`: the serialized preoutput bytes. -/
def VRFInOut.to_output (io : VRFInOut) : Bytes := io.output

/-- Completeness contract of the primitive library (spec section 6): honestly
produced public keys decode back, honestly produced preoutputs attach to their
own input under the signer's public key, honestly produced proofs decode, and
DLEQ verification accepts an honestly generated proof under the same protocol
identifier, transcript and input/output pair. -/
structure SchnorrkelLaws (S : Schnorrkel) : Prop where
  pk_roundtrip : ∀ pk : Nat, S.pkFromBytes (S.pkToBytes pk) = some pk
  attach_honest : ∀ (kp : Keypair) (t : Transcript),
    S.attachOk kp.public (S.vrfPreOut kp.secret t) t = true
  proof_decodes : ∀ (pid : String) (kp : Keypair) (t : Transcript) (io : VRFInOut),
    S.proofValid (S.dleqProove pid kp t io) = true
  dleq_complete : ∀ (pid : String) (kp : Keypair) (t : Transcript) (io : VRFInOut),
    S.dleqVerify pid kp.public t io (S.dleqProove pid kp t io) = true

/-- Modelled from the spec: the body of `validator_id_from_key` is
`unimplemented!()` in the source (its comment reads "checker.public.to_bytes()
except we need substrate's stuff here"); spec section 4.2 says the signer's
public validator identity is derived from the keypair, so it is modelled as
the public key's serialized bytes. -/
def validator_id_from_key (S : Schnorrkel) (key : Nat) : ValidatorId :=
  S.pkToBytes key

/-- `trait Criteria`: a pluggable assignment strategy builds the VRF-input
transcript from its story (`vrf_input`) and the authentication transcript from
the context (`extra`, defaulting to the context-binding transcript). -/
class Criteria (C : Type) (Story : outParam Type) where
  vrf_input : C → Story → AssignmentResult Transcript
  extra : C → ApprovalContext → Transcript := fun _ context => context.transcript

/-- `RelayVRFModulo { sample }`. -/
structure RelayVRFModulo where
  sample : Nat
deriving DecidableEq

/-- `impl Criteria for RelayVRFModulo`: errors on `sample > 0`, otherwise the
transcript with domain "Approval Assignment VRF", message field
"RelayVRFModulo" = relay VRF source, and numeric field "RelayVRFModulo" =
sample. -/
def RelayVRFModulo.vrf_input (c : RelayVRFModulo) (story : RelayVRFStory) :
    AssignmentResult Transcript :=
  if c.sample > 0 then
    AssignmentResult.error
      (Error.BadAssignment "RelayVRFModulo does not yet support additional samples")
  else
    AssignmentResult.ok (((Transcript.new "Approval Assignment VRF").append_message
      "RelayVRFModulo" story.anv_rc_vrf_source).append_u64 "RelayVRFModulo" c.sample)

instance instCriteriaRelayVRFModulo : Criteria RelayVRFModulo RelayVRFStory where
  vrf_input := RelayVRFModulo.vrf_input

/-- `RelayVRFDelay { paraid }`. -/
structure RelayVRFDelay where
  paraid : ParaId
deriving DecidableEq

/-- `impl Criteria for RelayVRFDelay`: never errors; transcript with domain
"Approval Assignment VRF", message field "RelayVRFDelay" = relay VRF source,
and numeric field "ParaId" = paraid. -/
def RelayVRFDelay.vrf_input (c : RelayVRFDelay) (story : RelayVRFStory) :
    AssignmentResult Transcript :=
  AssignmentResult.ok (((Transcript.new "Approval Assignment VRF").append_message
    "RelayVRFDelay" story.anv_rc_vrf_source).append_u64 "ParaId" c.paraid)

instance instCriteriaRelayVRFDelay : Criteria RelayVRFDelay RelayVRFStory where
  vrf_input := RelayVRFDelay.vrf_input

/-- `RelayEquivocation { paraid }`. -/
structure RelayEquivocation where
  paraid : ParaId
deriving DecidableEq

/-- `impl Criteria for RelayEquivocation`: errors with `BadStory` if the
paraid is not a recorded candidate equivocation, otherwise the transcript with
numeric field "ParaId" = paraid and message field "Candidate Equivocation" =
the recorded equivocating block hash. -/
def RelayEquivocation.vrf_input (c : RelayEquivocation) (story : RelayEquivocationStory) :
    AssignmentResult Transcript :=
  match story.candidate_equivocations.lookup c.paraid with
  | none => AssignmentResult.error (Error.BadStory "Not a candidate equivocation")
  | some hsh =>
      AssignmentResult.ok (((Transcript.new "Approval Assignment VRF").append_u64
        "ParaId" c.paraid).append_message "Candidate Equivocation" hsh)

instance instCriteriaRelayEquivocation : Criteria RelayEquivocation RelayEquivocationStory where
  vrf_input := RelayEquivocation.vrf_input

/-- `AssignmentSignature { checker, vrf_proof }`. -/
structure AssignmentSignature where
  checker : ValidatorId
  vrf_proof : Bytes
deriving DecidableEq

/-- `Assignment<C, K>`: criteria data, signature state (`()` for unsigned,
`AssignmentSignature` once signed), and the VRF input/output pair. -/
structure Assignment (C : Type) (K : Type) where
  criteria : C
  vrf_signature : K
  vrf_inout : VRFInOut
deriving DecidableEq

/-- `AssignmentSigned<C>`: the announcable wire form. -/
structure AssignmentSigned (C : Type) where
  context : ApprovalContext
  criteria : C
  vrf_preout : Bytes
  vrf_signature : AssignmentSignature
deriving DecidableEq

/-- `Assignment::checker`. -/
def Assignment.checker {C : Type} (a : Assignment C AssignmentSignature) : ValidatorId :=
  a.vrf_signature.checker

/-- `Assignment::to_signed(context)`: package context, criteria, serialized
preoutput bytes and signature. -/
def Assignment.to_signed {C : Type} (a : Assignment C AssignmentSignature)
    (context : ApprovalContext) : AssignmentSigned C :=
  { context := context, criteria := a.criteria, vrf_preout := a.vrf_inout.to_output,
    vrf_signature := a.vrf_signature }

/-- `Assignment::create(criteria, story, checker)`: build the VRF input from
the criteria and story, then derive the input/output pair from the keypair. -/
def Assignment.create (S : Schnorrkel) {C Story : Type} [Criteria C Story]
    (criteria : C) (story : Story) (checker : Keypair) :
    AssignmentResult (Assignment C Unit) :=
  match Criteria.vrf_input criteria story with
  | AssignmentResult.error e => AssignmentResult.error e
  | AssignmentResult.ok input =>
      AssignmentResult.ok
        { criteria := criteria, vrf_signature := (),
          vrf_inout := Keypair.vrf_create_hash S checker input }

/-- `Assignment::sign(context, checker)`: DLEQ-prove over the `extra`
transcript and the input/output pair under `KUSAMA_VRF`, and record the
signer's validator identity. -/
def Assignment.sign (S : Schnorrkel) {C Story : Type} [Criteria C Story]
    (a : Assignment C Unit) (context : ApprovalContext) (checker : Keypair) :
    Assignment C AssignmentSignature :=
  { criteria := a.criteria,
    vrf_signature :=
      { checker := validator_id_from_key S checker.public,
        vrf_proof := S.dleqProove KUSAMA_VRF checker
          (Criteria.extra a.criteria context) a.vrf_inout },
    vrf_inout := a.vrf_inout }

/-- `AssignmentSigned::checker`. -/
def AssignmentSigned.checker {C : Type} (sa : AssignmentSigned C) : ValidatorId :=
  sa.vrf_signature.checker

/-- `AssignmentSigned::checker_pk`: decode the signature's validator identity
into a public key. -/
def AssignmentSigned.checker_pk {C : Type} (sa : AssignmentSigned C) (S : Schnorrkel) :
    AssignmentResult Nat :=
  match S.pkFromBytes sa.vrf_signature.checker with
  | some pk => AssignmentResult.ok pk
  | none => AssignmentResult.error (Error.BadAssignment "Bad VRF signature (bad publickey)")

/-- `AssignmentSigned::verify(story)`: decode the checker's public key,
rebuild the VRF input from the criteria and story (propagating its error),
attach the stored preoutput, decode the proof, and DLEQ-verify against the
recomputed `extra` transcript under `KUSAMA_VRF`. -/
def AssignmentSigned.verify {C Story : Type} [Criteria C Story]
    (sa : AssignmentSigned C) (S : Schnorrkel) (story : Story) :
    AssignmentResult (ApprovalContext × Assignment C AssignmentSignature) :=
  match sa.checker_pk S with
  | AssignmentResult.error e => AssignmentResult.error e
  | AssignmentResult.ok checker_pk =>
      match Criteria.vrf_input sa.criteria story with
      | AssignmentResult.error e => AssignmentResult.error e
      | AssignmentResult.ok input =>
          if S.attachOk checker_pk sa.vrf_preout input then
            if S.proofValid sa.vrf_signature.vrf_proof then
              if S.dleqVerify KUSAMA_VRF checker_pk (Criteria.extra sa.criteria sa.context)
                  { input := input, output := sa.vrf_preout } sa.vrf_signature.vrf_proof then
                AssignmentResult.ok (sa.context,
                  { criteria := sa.criteria, vrf_signature := sa.vrf_signature,
                    vrf_inout := { input := input, output := sa.vrf_preout } })
              else AssignmentResult.error (Error.BadAssignment "Bad VRF signature (invalid)")
            else AssignmentResult.error (Error.BadAssignment "Bad VRF signature (bad proof)")
          else AssignmentResult.error (Error.BadAssignment "Bad VRF signature (bad pre-output)")

/-- `u64::from_le_bytes` on the 8 pseudorandom bytes. -/
def u64_from_le_bytes (bs : Bytes) : Nat :=
  bs.foldr (fun b acc => b + 256 * acc) 0

/-- `u32::saturating_mul`. -/
def satMul32 (a b : Nat) : Nat := min (a * b) (2 ^ 32 - 1)

/-- `u32::saturating_add`. -/
def satAdd32 (a b : Nat) : Nat := min (a + b) (2 ^ 32 - 1)

/-- `trait Position`, as implemented by the two source impl families; both
read only the assignment's criteria and `VRFInOut`, so the methods take those
directly.  An outer `none` models a Rust panic (the unguarded `%` by zero);
the default `delay_tranche` is the zeroth tranche, as in the source trait. -/
class PositionOf (C : Type) where
  pparaid : Schnorrkel → C → VRFInOut → ApprovalContext → Option (Option ParaId)
  pdelay_tranche : Schnorrkel → C → VRFInOut → ApprovalContext → Option DelayTranche :=
    fun _ _ _ _ => some 0

/-- `Position::paraid` on an `Assignment<C, K>`. -/
def Assignment.paraid (S : Schnorrkel) {C K : Type} [PositionOf C]
    (a : Assignment C K) (context : ApprovalContext) : Option (Option ParaId) :=
  PositionOf.pparaid S a.criteria a.vrf_inout context

/-- `Position::delay_tranche` on an `Assignment<C, K>`. -/
def Assignment.delay_tranche (S : Schnorrkel) {C K : Type} [PositionOf C]
    (a : Assignment C K) (context : ApprovalContext) : Option DelayTranche :=
  PositionOf.pdelay_tranche S a.criteria a.vrf_inout context

/-- `impl Position for Assignment<RelayVRFModulo, K>::paraid`: 8 pseudorandom
bytes under label "parachain", as a 64-bit integer, reduced modulo the length
of `paraids_by_core()`, indexing that sequence.  An empty sequence makes the
source's `%=` a remainder by zero, a panic, modelled as `none`. -/
def moduloParaid (S : Schnorrkel) (io : VRFInOut) (context : ApprovalContext) :
    Option (Option ParaId) :=
  if h : context.paraids_by_core.length = 0 then none
  else
    some (context.paraids_by_core.get
      ⟨u64_from_le_bytes (S.makeBytes8 io.input io.output "parachain")
          % context.paraids_by_core.length,
        Nat.mod_lt _ (Nat.pos_of_ne_zero h)⟩)

instance instPositionRelayVRFModulo : PositionOf RelayVRFModulo where
  pparaid S _c io context := moduloParaid S io context
  pdelay_tranche _S _c _io _context := some 0

/-- `trait DelayCriteria : Criteria`: delay-based criteria carry an explicit
paraid and two fixed tuning constants; `delay_tranches_per_core` defaults to
2 as in the source. -/
class DelayCriteria (C : Type) (Story : outParam Type) [Criteria C Story] where
  paraid : C → ParaId
  zeroth_delay_tranche_width : DelayTranche
  delay_tranches_per_core : DelayTranche := 2

instance instDelayCriteriaRelayVRFDelay : DelayCriteria RelayVRFDelay RelayVRFStory where
  paraid c := c.paraid
  zeroth_delay_tranche_width := 0

instance instDelayCriteriaRelayEquivocation :
    DelayCriteria RelayEquivocation RelayEquivocationStory where
  paraid c := c.paraid
  zeroth_delay_tranche_width := 7

/-- `impl Position for Assignment<C: DelayCriteria, K>::paraid`: the stored
paraid, or no assignment when it is not assigned to any core. -/
def delayParaid {C Story : Type} [Criteria C Story] [instD : DelayCriteria C Story]
    (c : C) (context : ApprovalContext) : Option ParaId :=
  if (context.core_by_paraid (instD.paraid c)).isNone then none
  else some (instD.paraid c)

/-- `impl Position for Assignment<C: DelayCriteria, K>::delay_tranche`:
saturating modulus `num_cores * delay_tranches_per_core +
zeroth_delay_tranche_width`, 8 pseudorandom bytes under label "tranche" as a
64-bit integer reduced modulo it, saturating subtraction of the zeroth width,
then the `as u32` cast.  A zero modulus makes the source's `%=` a remainder by
zero, a panic, modelled as `none`. -/
def delayDelayTranche (S : Schnorrkel) (tranches_per_core zeroth_width : DelayTranche)
    (io : VRFInOut) (context : ApprovalContext) : Option DelayTranche :=
  if satAdd32 (satMul32 context.num_cores tranches_per_core) zeroth_width = 0 then none
  else
    some ((u64_from_le_bytes (S.makeBytes8 io.input io.output "tranche")
        % satAdd32 (satMul32 context.num_cores tranches_per_core) zeroth_width
        - zeroth_width) % 2 ^ 32)

instance instPositionDelay {C Story : Type} [Criteria C Story]
    [instD : DelayCriteria C Story] : PositionOf C where
  pparaid _S c _io context := some (delayParaid c context)
  pdelay_tranche S _c io context :=
    delayDelayTranche S instD.delay_tranches_per_core instD.zeroth_delay_tranche_width
      io context

/-- Demonstration instance of the primitive library, used to evaluate the
pipeline on concrete inputs: the pseudorandom draw is 18 under the
"parachain" label and 3 otherwise, public keys serialize to a singleton byte
list, and all decoding and verification checks accept. -/
def Sdemo : Schnorrkel where
  vrfPreOut := fun _ _ => []
  attachOk := fun _ _ _ => true
  makeBytes8 := fun _ _ label =>
    if label = "parachain" then [18, 0, 0, 0, 0, 0, 0, 0] else [3, 0, 0, 0, 0, 0, 0, 0]
  dleqProove := fun _ _ _ _ => []
  proofValid := fun _ => true
  dleqVerify := fun _ _ _ _ _ => true
  pkFromBytes := fun bs => match bs with | [pk] => some pk | _ => none
  pkToBytes := fun pk => [pk]

theorem sdemo_laws : SchnorrkelLaws Sdemo :=
  ⟨fun _ => rfl, fun _ _ => rfl, fun _ _ _ _ => rfl, fun _ _ _ _ => rfl⟩

/-- A concrete VRF input/output pair for evaluations. -/
def io0 : VRFInOut := { input := [], output := [] }

/-- A context with 4 cores assigned to parachain ids 10, 11, 12, 13. -/
def ctx4 : ApprovalContext :=
  { slot := 0, epoch := 0, hash := [], authority := [], cores := [some 10, some 11, some 12, some 13] }

/-- A context with 5 cores. -/
def ctx5 : ApprovalContext :=
  { slot := 0, epoch := 0, hash := [], authority := [], cores := [some 99, none, none, none, none] }

/-- A degenerate context with no cores. -/
def ctx0 : ApprovalContext :=
  { slot := 0, epoch := 0, hash := [], authority := [], cores := [] }

/-- A concrete unsigned `RelayVRFModulo` assignment. -/
def aMod : Assignment RelayVRFModulo Unit :=
  { criteria := { sample := 0 }, vrf_signature := (), vrf_inout := io0 }

/-- A concrete unsigned `RelayEquivocation` assignment for paraid 99. -/
def aEq : Assignment RelayEquivocation Unit :=
  { criteria := { paraid := 99 }, vrf_signature := (), vrf_inout := io0 }

/-- A concrete relay VRF story. -/
def story0 : RelayVRFStory := { anv_rc_vrf_source := [] }

/-- A concrete equivocation story recording paraid 99. -/
def storyEq : RelayEquivocationStory := { candidate_equivocations := [(99, [5])] }

/-- A concrete keypair. -/
def kp0 : Keypair := { secret := 0, public := 0 }

/-- C8: for every story, `RelayVRFModulo { sample: 0 }.vrf_input` never
errors (it returns the sample-0 transcript), and for every sample `n > 0` it
always errors with the `BadAssignment` error stating additional samples are
unsupported. -/
theorem relay_vrf_modulo_vrf_input_spec (story : RelayVRFStory) (n : Nat) :
    Criteria.vrf_input ({ sample := 0 } : RelayVRFModulo) story
      = AssignmentResult.ok (((Transcript.new "Approval Assignment VRF").append_message
          "RelayVRFModulo" story.anv_rc_vrf_source).append_u64 "RelayVRFModulo" 0)
    ∧ (0 < n → Criteria.vrf_input ({ sample := n } : RelayVRFModulo) story
        = AssignmentResult.error
            (Error.BadAssignment "RelayVRFModulo does not yet support additional samples")) := by
  constructor
  · rfl
  · intro hn
    show RelayVRFModulo.vrf_input { sample := n } story = _
    unfold RelayVRFModulo.vrf_input
    rw [if_pos]
    exact hn

/-- Witness for C8 at a concrete story and sample 1. -/
theorem relay_vrf_modulo_vrf_input_checked :
    Criteria.vrf_input ({ sample := 1 } : RelayVRFModulo) story0
      = AssignmentResult.error
          (Error.BadAssignment "RelayVRFModulo does not yet support additional samples") :=
  (relay_vrf_modulo_vrf_input_spec story0 1).2 (by decide)

/-- C7: for every paraid `X` and story, `RelayEquivocation { paraid: X
}.vrf_input(story)` errors with the `BadStory` kind exactly when `X` is absent
from `candidate_equivocations`; on success the transcript binds the numeric
`ParaId` field and the recorded equivocating block hash for `X`. -/
theorem relay_equivocation_vrf_input_spec (X : ParaId) (story : RelayEquivocationStory) :
    (story.candidate_equivocations.lookup X = none →
      Criteria.vrf_input ({ paraid := X } : RelayEquivocation) story
        = AssignmentResult.error (Error.BadStory "Not a candidate equivocation"))
    ∧ (∀ hsh : Hash, story.candidate_equivocations.lookup X = some hsh →
        Criteria.vrf_input ({ paraid := X } : RelayEquivocation) story
          = AssignmentResult.ok (((Transcript.new "Approval Assignment VRF").append_u64
              "ParaId" X).append_message "Candidate Equivocation" hsh))
    ∧ ((∃ e, Criteria.vrf_input ({ paraid := X } : RelayEquivocation) story
          = AssignmentResult.error e)
        ↔ story.candidate_equivocations.lookup X = none) := by
  refine ⟨?_, ?_, ?_⟩
  · intro h
    show RelayEquivocation.vrf_input { paraid := X } story = _
    unfold RelayEquivocation.vrf_input
    rw [h]
  · intro hsh h
    show RelayEquivocation.vrf_input { paraid := X } story = _
    unfold RelayEquivocation.vrf_input
    rw [h]
  · constructor
    · rintro ⟨e, he⟩
      cases hl : story.candidate_equivocations.lookup X with
      | none => rfl
      | some hsh =>
          rw [show Criteria.vrf_input ({ paraid := X } : RelayEquivocation) story
              = RelayEquivocation.vrf_input { paraid := X } story from rfl] at he
          unfold RelayEquivocation.vrf_input at he
          rw [hl] at he
          exact absurd he (by simp)
    · intro h
      refine ⟨Error.BadStory "Not a candidate equivocation", ?_⟩
      show RelayEquivocation.vrf_input { paraid := X } story = _
      unfold RelayEquivocation.vrf_input
      rw [h]

/-- Witness for C7 at a concrete story recording paraid 99. -/
theorem relay_equivocation_vrf_input_checked :
    Criteria.vrf_input ({ paraid := 99 } : RelayEquivocation) storyEq
      = AssignmentResult.ok (((Transcript.new "Approval Assignment VRF").append_u64
          "ParaId" 99).append_message "Candidate Equivocation" [5]) :=
  (relay_equivocation_vrf_input_spec 99 storyEq).2.1 [5] (by decide)

/-- The `Position` methods on an `Assignment<RelayVRFModulo, K>` are the
modulo sortition (helper unfolding lemma). -/
theorem assignment_paraid_modulo_eq (S : Schnorrkel) {K : Type}
    (a : Assignment RelayVRFModulo K) (ctx : ApprovalContext) :
    Assignment.paraid S a ctx = moduloParaid S a.vrf_inout ctx := rfl

/-- The `Position::paraid` on a delay-criteria assignment is `delayParaid`
(helper unfolding lemma). -/
theorem assignment_paraid_delay_eq {C Story : Type} [Criteria C Story]
    [DelayCriteria C Story] (S : Schnorrkel) {K : Type}
    (a : Assignment C K) (ctx : ApprovalContext) :
    Assignment.paraid S a ctx = some (delayParaid a.criteria ctx) := rfl

/-- The `Position::delay_tranche` on a delay-criteria assignment is
`delayDelayTranche` at the instance's tuning constants (helper unfolding
lemma). -/
theorem assignment_delay_tranche_delay_eq {C Story : Type} [Criteria C Story]
    [instD : DelayCriteria C Story] (S : Schnorrkel) {K : Type}
    (a : Assignment C K) (ctx : ApprovalContext) :
    Assignment.delay_tranche S a ctx
      = delayDelayTranche S instD.delay_tranches_per_core instD.zeroth_delay_tranche_width
          a.vrf_inout ctx := rfl

/-- C4: for every `RelayVRFModulo` assignment and every context with a
nonempty core sequence, `Position::paraid` takes the 8 pseudorandom bytes
under label "parachain", interprets them as an unsigned 64-bit integer,
reduces modulo the number of entries of `paraids_by_core()`, and indexes that
ordered sequence; an empty selected entry gives no assignment. -/
theorem relay_vrf_modulo_paraid_spec (S : Schnorrkel) (K : Type)
    (a : Assignment RelayVRFModulo K) (ctx : ApprovalContext)
    (h : ctx.paraids_by_core.length ≠ 0) :
    Assignment.paraid S a ctx
      = some (ctx.paraids_by_core.get
          ⟨u64_from_le_bytes (S.makeBytes8 a.vrf_inout.input a.vrf_inout.output "parachain")
              % ctx.paraids_by_core.length,
            Nat.mod_lt _ (Nat.pos_of_ne_zero h)⟩)
    ∧ (ctx.paraids_by_core.get
          ⟨u64_from_le_bytes (S.makeBytes8 a.vrf_inout.input a.vrf_inout.output "parachain")
              % ctx.paraids_by_core.length,
            Nat.mod_lt _ (Nat.pos_of_ne_zero h)⟩ = none →
        Assignment.paraid S a ctx = some none) := by
  have he : Assignment.paraid S a ctx = moduloParaid S a.vrf_inout ctx :=
    assignment_paraid_modulo_eq S a ctx
  constructor
  · rw [he]
    unfold moduloParaid
    rw [dif_neg h]
  · intro h2
    rw [he]
    unfold moduloParaid
    rw [dif_neg h, h2]

/-- Witness for C4: with cores assigned to parachain ids 10, 11, 12, 13 and a
derived pseudorandom value of 18, the assigned paraid is 12 (18 mod 4 = 2). -/
theorem relay_vrf_modulo_paraid_checked :
    Assignment.paraid Sdemo aMod ctx4 = some (some 12) := by
  have h := (relay_vrf_modulo_paraid_spec Sdemo Unit aMod ctx4 (by decide)).1
  rw [h]
  rfl

/-- C9: for every delay-criteria assignment and context, `Position::paraid`
returns no assignment exactly when `core_by_paraid` has no core for the
criteria's stored paraid, and otherwise returns exactly that paraid; the
stored paraid of the two delay criteria is their `paraid` field. -/
theorem delay_paraid_spec (S : Schnorrkel) {C Story : Type} [Criteria C Story]
    [instD : DelayCriteria C Story] (K : Type) (a : Assignment C K)
    (ctx : ApprovalContext) :
    (ctx.core_by_paraid (instD.paraid a.criteria) = none →
      Assignment.paraid S a ctx = some none)
    ∧ (∀ k, ctx.core_by_paraid (instD.paraid a.criteria) = some k →
        Assignment.paraid S a ctx = some (some (instD.paraid a.criteria)))
    ∧ (∀ p : ParaId, instDelayCriteriaRelayVRFDelay.paraid { paraid := p } = p)
    ∧ (∀ p : ParaId, instDelayCriteriaRelayEquivocation.paraid { paraid := p } = p) := by
  refine ⟨?_, ?_, fun _ => rfl, fun _ => rfl⟩
  · intro h
    rw [assignment_paraid_delay_eq S a ctx]
    unfold delayParaid
    rw [h]
    rfl
  · intro k h
    rw [assignment_paraid_delay_eq S a ctx]
    unfold delayParaid
    rw [h]
    rfl

/-- Witness for C9: paraid 99 is assigned to core 0 in `ctx5`, so the
position resolves to paraid 99. -/
theorem delay_paraid_checked :
    Assignment.paraid Sdemo aEq ctx5 = some (some 99) :=
  (delay_paraid_spec Sdemo Unit aEq ctx5).2.1 0 (by decide)

/-- C10: the sortition modulo reductions are unguarded: `RelayVRFModulo`
paraid evaluates (does not hit the remainder-by-zero panic) exactly when
`paraids_by_core()` is nonempty, and delay-based `delay_tranche` evaluates
exactly when the saturated modulus is nonzero — in particular whenever
`num_cores() > 0` for `RelayVRFDelay`, whose zeroth width is 0. -/
theorem sortition_modulus_guard_spec (S : Schnorrkel) (ctx : ApprovalContext) :
    (∀ (K : Type) (a : Assignment RelayVRFModulo K),
      ctx.paraids_by_core ≠ [] → Assignment.paraid S a ctx ≠ none)
    ∧ (∀ (K : Type) (a : Assignment RelayVRFModulo K),
        ctx.paraids_by_core = [] → Assignment.paraid S a ctx = none)
    ∧ (∀ (tpc w : DelayTranche) (io : VRFInOut),
        satAdd32 (satMul32 ctx.num_cores tpc) w ≠ 0 →
        delayDelayTranche S tpc w io ctx ≠ none)
    ∧ (∀ (tpc w : DelayTranche) (io : VRFInOut),
        satAdd32 (satMul32 ctx.num_cores tpc) w = 0 →
        delayDelayTranche S tpc w io ctx = none)
    ∧ (∀ (K : Type) (a : Assignment RelayVRFDelay K),
        0 < ctx.num_cores → Assignment.delay_tranche S a ctx ≠ none) := by
  refine ⟨?_, ?_, ?_, ?_, ?_⟩
  · intro K a hne
    rw [assignment_paraid_modulo_eq S a ctx]
    unfold moduloParaid
    rw [dif_neg (by simpa [List.length_eq_zero] using hne)]
    simp
  · intro K a hemp
    rw [assignment_paraid_modulo_eq S a ctx]
    unfold moduloParaid
    rw [dif_pos (by simp [hemp])]
  · intro tpc w io h
    unfold delayDelayTranche
    rw [if_neg h]
    simp
  · intro tpc w io h
    unfold delayDelayTranche
    rw [if_pos h]
  · intro K a h
    rw [assignment_delay_tranche_delay_eq S a ctx]
    unfold delayDelayTranche
    have e1 : DelayCriteria.delay_tranches_per_core RelayVRFDelay = 2 := rfl
    have e2 : DelayCriteria.zeroth_delay_tranche_width RelayVRFDelay = 0 := rfl
    rw [e1, e2]
    have hmod : satAdd32 (satMul32 ctx.num_cores 2) 0 ≠ 0 := by
      have h1 : 0 < ctx.num_cores * 2 := by omega
      have h2 : (0 : Nat) < 2 ^ 32 - 1 := by norm_num
      have h3 : 0 < satMul32 ctx.num_cores 2 := lt_min h1 h2
      have h4 : 0 < satAdd32 (satMul32 ctx.num_cores 2) 0 :=
        lt_min (Nat.lt_of_lt_of_le h3 (Nat.le_add_right _ _)) h2
      omega
    rw [if_neg hmod]
    simp

/-- Witness for C10: in the 4-core context the modulo paraid evaluates. -/
theorem sortition_modulus_guard_checked :
    Assignment.paraid Sdemo aMod ctx4 ≠ none :=
  (sortition_modulus_guard_spec Sdemo ctx4).1 Unit aMod (by decide)

/-- The saturated modulus is positive whenever `num_cores *
delay_tranches_per_core` is (helper lemma). -/
theorem sat_modulus_pos (nc tpc w : Nat) (h : 0 < nc * tpc) :
    satAdd32 (satMul32 nc tpc) w ≠ 0 := by
  have hM : (0 : Nat) < 2 ^ 32 - 1 := by norm_num
  have hA : 0 < satMul32 nc tpc := lt_min h hM
  have hB : 0 < satAdd32 (satMul32 nc tpc) w :=
    lt_min (Nat.lt_of_lt_of_le hA (Nat.le_add_right _ _)) hM
  omega

/-- With a nonzero saturated modulus, `delayDelayTranche` is the modulo
reduction followed by the saturating subtraction; the trailing `as u32` cast
is lossless because the modulus stays below `2 ^ 32` (helper lemma). -/
theorem delayDelayTranche_eq (S : Schnorrkel) (tpc w : DelayTranche)
    (io : VRFInOut) (ctx : ApprovalContext)
    (h : satAdd32 (satMul32 ctx.num_cores tpc) w ≠ 0) :
    delayDelayTranche S tpc w io ctx
      = some (u64_from_le_bytes (S.makeBytes8 io.input io.output "tranche")
          % satAdd32 (satMul32 ctx.num_cores tpc) w - w) := by
  unfold delayDelayTranche
  rw [if_neg h]
  congr 1
  apply Nat.mod_eq_of_lt
  have hB : 0 < satAdd32 (satMul32 ctx.num_cores tpc) w := Nat.pos_of_ne_zero h
  have hr := Nat.mod_lt (u64_from_le_bytes (S.makeBytes8 io.input io.output "tranche")) hB
  have hle : satAdd32 (satMul32 ctx.num_cores tpc) w ≤ 2 ^ 32 - 1 := Nat.min_le_right _ _
  omega

/-- The reduced-then-subtracted tranche stays below `num_cores *
delay_tranches_per_core`, saturation included (helper lemma). -/
theorem tranche_sub_bound (nc tpc w raw : Nat) (h : 0 < nc * tpc) :
    raw % satAdd32 (satMul32 nc tpc) w - w < nc * tpc := by
  have hM : (0 : Nat) < 2 ^ 32 - 1 := by norm_num
  have hA : 0 < satMul32 nc tpc := lt_min h hM
  have hB : 0 < satAdd32 (satMul32 nc tpc) w :=
    lt_min (Nat.lt_of_lt_of_le hA (Nat.le_add_right _ _)) hM
  have hr := Nat.mod_lt raw hB
  have h1 : satMul32 nc tpc ≤ nc * tpc := Nat.min_le_left _ _
  have h2 : satAdd32 (satMul32 nc tpc) w ≤ satMul32 nc tpc + w := Nat.min_le_left _ _
  set P := nc * tpc with hP
  set A := satMul32 nc tpc with hA2
  set B := satAdd32 A w with hB2
  set r := raw % B with hr2
  omega

/-- C5: for every delay-criteria assignment and context with a nonzero
saturated modulus `num_cores * delay_tranches_per_core +
zeroth_delay_tranche_width`, `delay_tranche` reduces the 8 pseudorandom bytes
under label "tranche" (as an unsigned 64-bit integer) modulo that modulus and
saturating-subtracts the zeroth width; the fixed constants are
`delay_tranches_per_core = 2` for both criteria, and
`zeroth_delay_tranche_width = 0` for `RelayVRFDelay` and `7` for
`RelayEquivocation`. -/
theorem delay_tranche_formula_spec (S : Schnorrkel) {C Story : Type} [Criteria C Story]
    [instD : DelayCriteria C Story] (K : Type) (a : Assignment C K)
    (ctx : ApprovalContext)
    (h : satAdd32 (satMul32 ctx.num_cores instD.delay_tranches_per_core)
        instD.zeroth_delay_tranche_width ≠ 0) :
    Assignment.delay_tranche S a ctx
      = some (u64_from_le_bytes (S.makeBytes8 a.vrf_inout.input a.vrf_inout.output "tranche")
          % satAdd32 (satMul32 ctx.num_cores instD.delay_tranches_per_core)
              instD.zeroth_delay_tranche_width
          - instD.zeroth_delay_tranche_width)
    ∧ instDelayCriteriaRelayVRFDelay.delay_tranches_per_core = 2
    ∧ instDelayCriteriaRelayEquivocation.delay_tranches_per_core = 2
    ∧ instDelayCriteriaRelayVRFDelay.zeroth_delay_tranche_width = 0
    ∧ instDelayCriteriaRelayEquivocation.zeroth_delay_tranche_width = 7 := by
  refine ⟨?_, rfl, rfl, rfl, rfl⟩
  rw [assignment_delay_tranche_delay_eq S a ctx]
  exact delayDelayTranche_eq S _ _ _ _ h

/-- Witness for C5: `RelayEquivocation { paraid: 99 }` in a 5-core context
has modulus 5 * 2 + 7 = 17; the pseudorandom tranche value 3 gives raw
tranche 3 mod 17 = 3, and saturating-subtracting 7 yields 0. -/
theorem delay_tranche_formula_checked :
    Assignment.delay_tranche Sdemo aEq ctx5 = some 0 := by
  have h := (delay_tranche_formula_spec Sdemo Unit aEq ctx5 (by decide)).1
  rw [h]
  decide

/-- Counterexample for C6 as stated: in a context with no cores, the
`RelayEquivocation` modulus saturates to 0 * 2 + 7 = 7, so `delay_tranche`
evaluates to 0 — but the claimed interval `[0, num_cores *
delay_tranches_per_core) = [0, 0)` is empty, so the value lies outside it. -/
theorem delay_tranche_range_counterexample :
    Assignment.delay_tranche Sdemo aEq ctx0 = some 0
    ∧ ¬ (0 < ctx0.num_cores * instDelayCriteriaRelayEquivocation.delay_tranches_per_core) := by
  constructor
  · decide
  · decide

/-- C6 amended: for every context with at least one core, the delay-based
`delay_tranche` is always defined and lies in `[0, num_cores *
delay_tranches_per_core)`, for both `RelayVRFDelay` and `RelayEquivocation`;
`RelayVRFModulo`'s `delay_tranche` is always exactly 0 (unconditionally). -/
theorem delay_tranche_range_amended (S : Schnorrkel) (ctx : ApprovalContext)
    (h : 0 < ctx.num_cores) :
    (∀ (K : Type) (a : Assignment RelayVRFDelay K),
      ∃ t, Assignment.delay_tranche S a ctx = some t
        ∧ t < ctx.num_cores * instDelayCriteriaRelayVRFDelay.delay_tranches_per_core)
    ∧ (∀ (K : Type) (a : Assignment RelayEquivocation K),
        ∃ t, Assignment.delay_tranche S a ctx = some t
          ∧ t < ctx.num_cores * instDelayCriteriaRelayEquivocation.delay_tranches_per_core)
    ∧ (∀ (K : Type) (a : Assignment RelayVRFModulo K),
        Assignment.delay_tranche S a ctx = some 0) := by
  have hpos : 0 < ctx.num_cores * 2 := by omega
  refine ⟨?_, ?_, fun K a => rfl⟩
  · intro K a
    show ∃ t, Assignment.delay_tranche S a ctx = some t ∧ t < ctx.num_cores * 2
    rw [assignment_delay_tranche_delay_eq S a ctx]
    have e1 : DelayCriteria.delay_tranches_per_core RelayVRFDelay = 2 := rfl
    have e2 : DelayCriteria.zeroth_delay_tranche_width RelayVRFDelay = 0 := rfl
    rw [e1, e2, delayDelayTranche_eq S 2 0 a.vrf_inout ctx (sat_modulus_pos _ 2 0 hpos)]
    exact ⟨_, rfl, tranche_sub_bound ctx.num_cores 2 0 _ hpos⟩
  · intro K a
    show ∃ t, Assignment.delay_tranche S a ctx = some t ∧ t < ctx.num_cores * 2
    rw [assignment_delay_tranche_delay_eq S a ctx]
    have e1 : DelayCriteria.delay_tranches_per_core RelayEquivocation = 2 := rfl
    have e2 : DelayCriteria.zeroth_delay_tranche_width RelayEquivocation = 7 := rfl
    rw [e1, e2, delayDelayTranche_eq S 2 7 a.vrf_inout ctx (sat_modulus_pos _ 2 7 hpos)]
    exact ⟨_, rfl, tranche_sub_bound ctx.num_cores 2 7 _ hpos⟩

/-- Witness for the amended C6 in the 5-core context. -/
theorem delay_tranche_range_checked :
    ∃ t, Assignment.delay_tranche Sdemo aEq ctx5 = some t
      ∧ t < ctx5.num_cores * instDelayCriteriaRelayEquivocation.delay_tranches_per_core :=
  (delay_tranche_range_amended Sdemo ctx5 (by decide)).2.1 Unit aEq

/-- C2: for every unsigned assignment, context and keypair, `Assignment::sign`
is a total pure function of its inputs: it always produces the signed
assignment whose identity is derived from the keypair's public key, whose
proof is the DLEQ proof over the criteria's `extra` transcript and the VRF
input/output pair under the fixed protocol identifier, and whose criteria and
input/output pair are unchanged. -/
theorem assignment_sign_total (S : Schnorrkel) {C Story : Type} [Criteria C Story]
    (a : Assignment C Unit) (context : ApprovalContext) (checker : Keypair) :
    a.sign S context checker
      = { criteria := a.criteria,
          vrf_signature :=
            { checker := validator_id_from_key S checker.public,
              vrf_proof := S.dleqProove KUSAMA_VRF checker
                (Criteria.extra a.criteria context) a.vrf_inout },
          vrf_inout := a.vrf_inout }
    ∧ (a.sign S context checker).checker = validator_id_from_key S checker.public :=
  ⟨rfl, rfl⟩

/-- C3: for every signed-assignment wire value and story, `verify` performs
its checks in order and maps each failure to its error: a malformed validator
identity gives the "bad publickey" `BadAssignment` error before anything
else; then `vrf_input` errors propagate verbatim; then an inconsistent
preoutput gives the "bad pre-output" error; then a malformed proof gives the
"bad proof" error; then a failed DLEQ verification gives the "invalid" error;
on full success `verify` returns the context and the verified assignment. -/
theorem assignment_verify_error_order (S : Schnorrkel) {C Story : Type}
    [Criteria C Story] (sa : AssignmentSigned C) (story : Story) :
    (S.pkFromBytes sa.vrf_signature.checker = none →
      sa.verify S story
        = AssignmentResult.error (Error.BadAssignment "Bad VRF signature (bad publickey)"))
    ∧ (∀ pk e, S.pkFromBytes sa.vrf_signature.checker = some pk →
        Criteria.vrf_input sa.criteria story = AssignmentResult.error e →
        sa.verify S story = AssignmentResult.error e)
    ∧ (∀ pk input, S.pkFromBytes sa.vrf_signature.checker = some pk →
        Criteria.vrf_input sa.criteria story = AssignmentResult.ok input →
        S.attachOk pk sa.vrf_preout input = false →
        sa.verify S story
          = AssignmentResult.error (Error.BadAssignment "Bad VRF signature (bad pre-output)"))
    ∧ (∀ pk input, S.pkFromBytes sa.vrf_signature.checker = some pk →
        Criteria.vrf_input sa.criteria story = AssignmentResult.ok input →
        S.attachOk pk sa.vrf_preout input = true →
        S.proofValid sa.vrf_signature.vrf_proof = false →
        sa.verify S story
          = AssignmentResult.error (Error.BadAssignment "Bad VRF signature (bad proof)"))
    ∧ (∀ pk input, S.pkFromBytes sa.vrf_signature.checker = some pk →
        Criteria.vrf_input sa.criteria story = AssignmentResult.ok input →
        S.attachOk pk sa.vrf_preout input = true →
        S.proofValid sa.vrf_signature.vrf_proof = true →
        S.dleqVerify KUSAMA_VRF pk (Criteria.extra sa.criteria sa.context)
          { input := input, output := sa.vrf_preout } sa.vrf_signature.vrf_proof = false →
        sa.verify S story
          = AssignmentResult.error (Error.BadAssignment "Bad VRF signature (invalid)"))
    ∧ (∀ pk input, S.pkFromBytes sa.vrf_signature.checker = some pk →
        Criteria.vrf_input sa.criteria story = AssignmentResult.ok input →
        S.attachOk pk sa.vrf_preout input = true →
        S.proofValid sa.vrf_signature.vrf_proof = true →
        S.dleqVerify KUSAMA_VRF pk (Criteria.extra sa.criteria sa.context)
          { input := input, output := sa.vrf_preout } sa.vrf_signature.vrf_proof = true →
        sa.verify S story = AssignmentResult.ok (sa.context,
          { criteria := sa.criteria, vrf_signature := sa.vrf_signature,
            vrf_inout := { input := input, output := sa.vrf_preout } })) := by
  refine ⟨?_, ?_, ?_, ?_, ?_, ?_⟩
  · intro h1
    simp [AssignmentSigned.verify, AssignmentSigned.checker_pk, h1]
  · intro pk e h1 h2
    simp [AssignmentSigned.verify, AssignmentSigned.checker_pk, h1, h2]
  · intro pk input h1 h2 h3
    simp [AssignmentSigned.verify, AssignmentSigned.checker_pk, h1, h2, h3]
  · intro pk input h1 h2 h3 h4
    simp [AssignmentSigned.verify, AssignmentSigned.checker_pk, h1, h2, h3, h4]
  · intro pk input h1 h2 h3 h4 h5
    simp [AssignmentSigned.verify, AssignmentSigned.checker_pk, h1, h2, h3, h4, h5]
  · intro pk input h1 h2 h3 h4 h5
    simp [AssignmentSigned.verify, AssignmentSigned.checker_pk, h1, h2, h3, h4, h5]

/-- A concrete wire value whose validator identity bytes do not decode under
`Sdemo` (only singleton byte lists are valid keys there). -/
def sa0 : AssignmentSigned RelayVRFModulo :=
  { context := ctx4, criteria := { sample := 0 }, vrf_preout := [],
    vrf_signature := { checker := [], vrf_proof := [] } }

/-- Witness for C3: the malformed validator identity of `sa0` yields the
"bad publickey" error. -/
theorem assignment_verify_error_order_checked :
    sa0.verify Sdemo story0
      = AssignmentResult.error (Error.BadAssignment "Bad VRF signature (bad publickey)") :=
  (assignment_verify_error_order Sdemo sa0 story0).1 (by decide)

/-- C1: for every criteria, story, keypair and context such that
`vrf_input` succeeds (so `create` returns an assignment), the pipeline
`create`, `sign`, `to_signed`, `verify` succeeds, the verified assignment is
exactly the locally signed one (so every `Position` result computed from it
equals the locally computed one), the verified `checker()` is the validator
identity derived from the signing keypair, and the signed assignment's
`Position` results equal those of the unsigned `Assignment`. -/
theorem assignment_roundtrip (S : Schnorrkel) (hS : SchnorrkelLaws S)
    {C Story : Type} [Criteria C Story] [PositionOf C] (criteria : C)
    (story : Story) (checker : Keypair) (context : ApprovalContext)
    (a : Assignment C Unit)
    (hc : Assignment.create S criteria story checker = AssignmentResult.ok a) :
    ((a.sign S context checker).to_signed context).verify S story
        = AssignmentResult.ok (context, a.sign S context checker)
    ∧ (a.sign S context checker).checker = validator_id_from_key S checker.public
    ∧ (∀ ctx2 : ApprovalContext,
        Assignment.paraid S (a.sign S context checker) ctx2 = Assignment.paraid S a ctx2
        ∧ Assignment.delay_tranche S (a.sign S context checker) ctx2
            = Assignment.delay_tranche S a ctx2) := by
  unfold Assignment.create at hc
  cases hvi : Criteria.vrf_input criteria story with
  | error e =>
      rw [hvi] at hc
      exact absurd hc (by simp)
  | ok input =>
      rw [hvi] at hc
      injection hc with hc
      subst hc
      refine ⟨?_, rfl, fun ctx2 => ⟨rfl, rfl⟩⟩
      simp [Assignment.sign, Assignment.to_signed, AssignmentSigned.verify,
        AssignmentSigned.checker_pk, VRFInOut.to_output, Keypair.vrf_create_hash,
        validator_id_from_key, hS.pk_roundtrip, hvi, hS.attach_honest,
        hS.proof_decodes, hS.dleq_complete]

/-- The unsigned assignment produced by `create` for `RelayVRFModulo {
sample: 0 }` over `story0` under `Sdemo`. -/
def a0 : Assignment RelayVRFModulo Unit :=
  { criteria := { sample := 0 }, vrf_signature := (),
    vrf_inout :=
      { input := ((Transcript.new "Approval Assignment VRF").append_message
          "RelayVRFModulo" []).append_u64 "RelayVRFModulo" 0,
        output := [] } }

/-- Witness for C1 at a concrete criteria, story, keypair and context. -/
theorem assignment_roundtrip_checked :
    ((a0.sign Sdemo ctx4 kp0).to_signed ctx4).verify Sdemo story0
      = AssignmentResult.ok (ctx4, a0.sign Sdemo ctx4 kp0) :=
  (assignment_roundtrip Sdemo sdemo_laws { sample := 0 } story0 kp0 ctx4 a0
    (by decide)).1
